import Mathlib

/-!
Shallow embedding of the per-account race machinery of the repository:
the submission-response parser and high-concurrency submission race of
`ApplicationSubmitter`, the ticket rate limiter and acquisition loop of
`TicketManager`, the two copies of `TicketValidator.parseValidationResponse`,
the `ProxyPool` route selection, and the aggregate statistics of
`PurchaseFlow`.  JavaScript objects are modelled as Lean structures; absent
boolean fields (which JavaScript reads as `undefined`, falsy) are modelled
as `false`; times are integer milliseconds.
-/

namespace Hnbt

/-- Character-list prefix test, used to embed JavaScript `String.includes`. -/
def charsStart (pat s : List Char) : Bool :=
  match pat, s with
  | [], _ => true
  | _ :: _, [] => false
  | a :: as, b :: bs => a == b && charsStart as bs

/-- Character-list substring test. -/
def charsContain (pat : List Char) : List Char → Bool
  | [] => charsStart pat []
  | c :: rest => charsStart pat (c :: rest) || charsContain pat rest

/-- Embeds JavaScript `s.includes(pat)`. -/
def strContains (s pat : String) : Bool :=
  charsContain pat.toList s.toList

/-- The JavaScript value found in a response body's `success` field:
the parser only distinguishes `=== true`, `=== false`, absent, and any
other value. -/
inductive JsBoolField
  | jsTrue
  | jsFalse
  | jsAbsent
  | jsOther
deriving DecidableEq, Repr

/-- The body (`responseData`) of a submit-application response. -/
structure SubmitRespData where
  success : JsBoolField
  code : Option String
  message : Option String
  requestId : Option String
deriving DecidableEq, Repr

/-- The `data` field of an `apiClient` result: `null`/`undefined`, a
non-object value, or a response body object. -/
inductive ApiData
  | nullData
  | nonObject
  | obj (d : SubmitRespData)
deriving DecidableEq, Repr

/-- An `apiClient.submitApplication` result as consumed by
`parseSubmitResponse`: transport-level success flag, message, payload. -/
structure ApiResult where
  success : Bool
  message : Option String
  data : ApiData
deriving DecidableEq, Repr

/-- The `status` strings produced by `ApplicationSubmitter.parseSubmitResponse`.
`parse_error` is the `catch` branch of the JavaScript function. -/
inductive SubmitStatus
  | api_error
  | invalid_response
  | submitted
  | ticket_invalid
  | duplicate
  | failed
  | unknown
  | parse_error
deriving DecidableEq, Repr

/-- The result object of `parseSubmitResponse`.  Fields the JavaScript
object omits are `false`/`none` here (JavaScript reads them as falsy). -/
structure SubmitResult where
  success : Bool
  status : SubmitStatus
  message : String
  code : Option String
  requestId : Option String
  needRetry : Bool
  needNewTicket : Bool
deriving DecidableEq, Repr

/-- Embeds `ApplicationSubmitter.parseSubmitResponse` (src/unnamed/part_000,
lines 282-383).  The `catch` branch (`parse_error`) cannot fire in the
embedding because no branch throws. -/
def parseSubmitResponse (apiResult : ApiResult) : SubmitResult :=
  if apiResult.success = false then
    { success := false, status := .api_error,
      message := apiResult.message.getD "API调用失败",
      code := none, requestId := none, needRetry := false, needNewTicket := false }
  else
    match apiResult.data with
    | .nullData =>
        { success := false, status := .invalid_response, message := "响应格式错误",
          code := none, requestId := none, needRetry := true, needNewTicket := false }
    | .nonObject =>
        { success := false, status := .invalid_response, message := "响应格式错误",
          code := none, requestId := none, needRetry := true, needNewTicket := false }
    | .obj d =>
      match d.success with
      | .jsTrue =>
          { success := true, status := .submitted,
            message := d.message.getD "提交成功",
            code := d.code, requestId := d.requestId,
            needRetry := false, needNewTicket := false }
      | .jsFalse =>
          if d.code = some "TICKET_INVALID" then
            { success := false, status := .ticket_invalid, message := "Ticket过期",
              code := d.code, requestId := none,
              needRetry := false, needNewTicket := true }
          else if strContains (d.message.getD "") "重复提交" then
            { success := true, status := .duplicate,
              message := d.message.getD "",
              code := d.code, requestId := d.requestId,
              needRetry := false, needNewTicket := false }
          else
            { success := false, status := .failed, message := d.message.getD "",
              code := d.code, requestId := none,
              needRetry := true, needNewTicket := false }
      | .jsAbsent =>
          { success := false, status := .unknown, message := "未知响应状态",
            code := none, requestId := none, needRetry := true, needNewTicket := false }
      | .jsOther =>
          { success := false, status := .unknown, message := "未知响应状态",
            code := none, requestId := none, needRetry := true, needNewTicket := false }

/-!
The high-concurrency submission race of
`ApplicationSubmitter.executeHighConcurrencySubmission` (src/unnamed/part_000,
lines 128-222).  JavaScript runs callbacks one at a time on a single event
loop, so the race is embedded as a sequential transition system: each event
is one callback invocation (a round start, a per-task dispatch check, a
completed task's `.then` handler, the timeout handler, or the external
`stop()`).  `resolved` collects the arguments ever passed to the promise's
`resolve`; the real promise keeps only the first, so proving `resolved`
never exceeds one element proves `resolve` is called at most once.
-/

/-- A terminal value passed to `resolve` by the race: the `handleSuccess`
payload, the `handleTicketExpired` payload, or the timeout payload. -/
inductive RaceOutcome
  | succeeded (r : SubmitResult)
  | needTicket
  | timedOut
deriving DecidableEq, Repr

/-- The mutable state captured by the closures inside
`executeHighConcurrencySubmission`, plus instrumentation: `roundCounter`
mirrors the source's counter, `dispatchCount` counts how many per-task
submissions were actually fired, `resolved` the values passed to
`resolve`. -/
structure RaceState where
  completed : Bool
  isRunning : Bool
  roundCounter : Nat
  dispatchCount : Nat
  resolved : List RaceOutcome
deriving DecidableEq, Repr

/-- State at entry of `executeHighConcurrencySubmission` for a running
submitter. -/
def initRaceState : RaceState :=
  { completed := false, isRunning := true, roundCounter := 0,
    dispatchCount := 0, resolved := [] }

/-- One event-loop callback of the race. -/
inductive RaceEvent
  | roundStart
  | taskDispatch
  | taskComplete (r : SubmitResult)
  | timeoutFire
  | stopSignal
deriving DecidableEq, Repr

/-- `completed = true; resolve(o)` — shared tail of `handleSuccess`,
`handleTicketExpired` and the timeout handler. -/
def finalize (o : RaceOutcome) (s : RaceState) : RaceState :=
  { s with completed := true, resolved := s.resolved ++ [o] }

/-- One callback step of the race, transcribed from the source:
`startSubmissionRound` returns at once when `completed || !isRunning`
(line 164); each per-task dispatch re-checks the same guard (line 171);
a task's `.then` handler (lines 174-188) first re-checks `completed`,
then routes `submitted`/`duplicate` successes to `handleSuccess` and
`needNewTicket` results to `handleTicketExpired`; the timeout handler
(lines 209-220) resolves only when `!completed`; `stop()` clears
`isRunning`. -/
def raceStep (s : RaceState) : RaceEvent → RaceState
  | .roundStart =>
      if s.completed = true ∨ s.isRunning = false then s
      else { s with roundCounter := s.roundCounter + 1 }
  | .taskDispatch =>
      if s.completed = true ∨ s.isRunning = false then s
      else { s with dispatchCount := s.dispatchCount + 1 }
  | .taskComplete r =>
      if s.completed = true then s
      else if r.success = true ∧ (r.status = .submitted ∨ r.status = .duplicate) then
        finalize (.succeeded r) s
      else if r.needNewTicket = true then
        finalize .needTicket s
      else s
  | .timeoutFire =>
      if s.completed = true then s else finalize .timedOut s
  | .stopSignal => { s with isRunning := false }

/-- Run a sequence of race callbacks. -/
def runRace (s : RaceState) : List RaceEvent → RaceState
  | [] => s
  | e :: es => runRace (raceStep s e) es

/-!
The resolve payload as seen by callers of `submitForAccount`, and the
per-account controller `PurchaseFlow.executeIndependentAccountFlow`
(src/src/modules/ticketValidator.js third document, lines 543-618).
-/

/-- The object `executeHighConcurrencySubmission`'s promise resolves with,
as read by callers (absent fields are falsy). -/
structure SubmissionResult where
  success : Bool
  completed : Bool
  needNewTicket : Bool
  result : Option SubmitResult
deriving DecidableEq, Repr

/-- The literal resolve payloads of the three finalizers (lines 140-145,
154-159, 213-218 of src/unnamed/part_000). -/
def outcomeToSubmission : RaceOutcome → SubmissionResult
  | .succeeded r => { success := true, completed := true, needNewTicket := false, result := some r }
  | .needTicket => { success := false, completed := false, needNewTicket := true, result := none }
  | .timedOut => { success := false, completed := false, needNewTicket := false, result := none }

/-- The `type` strings recorded for an account's terminal flow result. -/
inductive FlowType
  | submittedType
  | duplicateType
  | interruptedType
  | errorType
deriving DecidableEq, Repr

/-- The value an account's independent flow resolves with, as read by
`calculateResultStats`. -/
structure FlowValue where
  success : Bool
  type : FlowType
deriving DecidableEq, Repr

/-- What the controller loop does after `submitForAccount` returns. -/
inductive FlowNext
  | finish (v : FlowValue)
  | reacquireTicket
  | retrySubmission
deriving DecidableEq, Repr

/-- The step-3 branch of `executeIndependentAccountFlow` (lines 573-592):
a successful completed submission finishes the flow with `type` equal to
`duplicate` exactly when the winning result's status was `duplicate`;
`needNewTicket` sends the loop back to ticket acquisition; anything else
retries submission. -/
def flowAfterSubmission (sr : SubmissionResult) : FlowNext :=
  if sr.success = true ∧ sr.completed = true then
    .finish { success := true,
              type := if sr.result.map SubmitResult.status = some .duplicate
                      then .duplicateType else .submittedType }
  else if sr.needNewTicket = true then .reacquireTicket
  else .retrySubmission

/-- The step-2 branch of `executeIndependentAccountFlow` (lines 562-567)
and of `continuousValidation`: an invalid validation result sends the loop
back to step 1 (ticket acquisition); a valid one proceeds to submission. -/
inductive FlowStep2
  | proceedToSubmit
  | backToAcquisition
deriving DecidableEq, Repr

/-- A settled promise as inspected by `calculateResultStats`. -/
inductive Settled
  | fulfilled (v : FlowValue)
  | rejected
deriving DecidableEq, Repr

/-- The aggregate statistics object of
`PurchaseFlow.calculateResultStats`. -/
structure FlowStats where
  success : Nat
  duplicate : Nat
  fail : Nat
  total : Nat
deriving DecidableEq, Repr

/-- Classification predicates of the `forEach` in `calculateResultStats`
(src/src/modules/ticketValidator.js third document, lines 623-641): a
fulfilled successful result counts under `duplicate` when its type is
`duplicate` and under `success` otherwise; everything else counts under
`fail`. -/
def countsDuplicate : Settled → Bool
  | .fulfilled v => v.success && v.type == .duplicateType
  | .rejected => false

/-- Successful non-duplicate classification of `calculateResultStats`. -/
def countsSuccess : Settled → Bool
  | .fulfilled v => v.success && !(v.type == .duplicateType)
  | .rejected => false

/-- Failure classification of `calculateResultStats`. -/
def countsFail : Settled → Bool
  | .fulfilled v => !v.success
  | .rejected => true

/-- Embeds `PurchaseFlow.calculateResultStats`: each settled result lands
in exactly one of the three counters. -/
def calculateResultStats (rs : List Settled) : FlowStats :=
  { success := rs.countP countsSuccess
    duplicate := rs.countP countsDuplicate
    fail := rs.countP countsFail
    total := rs.length }

/-!
`ApplicationSubmitter.submitForAccount` and its account-status registry
(src/unnamed/part_000, lines 28-84 and 566-581).
-/

/-- The record stored by `markAccountCompleted`. -/
structure AccountStatus where
  status : String
  completedAt : Int
deriving DecidableEq, Repr

/-- The submitter's mutable registries (`accountStatuses` is a `Map`
keyed by account id, embedded as an association list). -/
structure SubmitterState where
  accountStatuses : List (String × AccountStatus)
  successfulAccounts : List String
  duplicateSubmissions : List String
  isRunning : Bool
deriving DecidableEq, Repr

/-- Embeds `isAccountCompleted`: `this.accountStatuses.has(accountId)`. -/
def isAccountCompleted (st : SubmitterState) (accountId : String) : Bool :=
  st.accountStatuses.any (fun p => p.1 == accountId)

/-- Embeds `markAccountCompleted` (`Map.set`, modelled as prepend to the
association list whose lookup takes the first hit). -/
def markAccountCompleted (st : SubmitterState) (accountId : String)
    (status : String) (now : Int) : SubmitterState :=
  { st with accountStatuses :=
      (accountId, { status := status, completedAt := now }) :: st.accountStatuses }

/-- An account as consumed by `generateSubmitTasks`: the per-quota tourism
subsidy ids and the optional food subsidy id. -/
structure Account where
  accId : String
  tourismSubsidyIds : List (String × String)
  foodSubsidyId : Option String
deriving DecidableEq, Repr

/-- The task type tags of `generateSubmitTasks`. -/
inductive TaskType
  | tourism
  | food
deriving DecidableEq, Repr

/-- A submit task of `generateSubmitTasks`. -/
structure SubmitTask where
  type : TaskType
  quota : Option String
  subsidyId : String
  ticket : String
deriving DecidableEq, Repr

/-- Embeds `generateSubmitTasks` (lines 96-123): one task per tourism
quota entry, then a food task when `foodSubsidyId` is set. -/
def generateSubmitTasks (a : Account) (ticket : String) : List SubmitTask :=
  (a.tourismSubsidyIds.map fun qs =>
    { type := .tourism, quota := some qs.1, subsidyId := qs.2, ticket := ticket })
  ++ (match a.foodSubsidyId with
      | some sid => [{ type := .food, quota := none, subsidyId := sid, ticket := ticket }]
      | none => [])

/-- The control decision `submitForAccount` reaches before any network
activity: return at once for an already-completed account, return an
error for an account with no tasks, or launch the high-concurrency race
over the generated tasks. -/
inductive SubmitDecision
  | alreadyCompleted (res : SubmissionResult)
  | noTasks (res : SubmissionResult)
  | runHighConcurrency (tasks : List SubmitTask)
deriving DecidableEq, Repr

/-- Embeds the synchronous head of `ApplicationSubmitter.submitForAccount`
(lines 28-62): the completed-account guard returns
`{success: true, completed: true}` without touching state or generating
tasks; an empty task list returns a no-retry failure; otherwise the race
is launched over the generated tasks.  The returned state is the
submitter state after the decision. -/
def submitForAccount (st : SubmitterState) (a : Account) (ticket : String) :
    SubmitDecision × SubmitterState :=
  if isAccountCompleted st a.accId = true then
    (.alreadyCompleted { success := true, completed := true,
                         needNewTicket := false, result := none }, st)
  else
    let tasks := generateSubmitTasks a ticket
    if tasks.length = 0 then
      (.noTasks { success := false, completed := false,
                  needNewTicket := false, result := none }, st)
    else
      (.runHighConcurrency tasks, st)

/-!
`ProxyPool` route selection (src/src/modules/purchaseFlow.js second
document, lines 303-553).
-/

/-- A pool entry as produced by `fetchProxies`. -/
structure Proxy where
  host : String
  port : Nat
  protocol : String
  enabled : Bool
  failCount : Nat
  maxFails : Nat
deriving DecidableEq, Repr

/-- The route object returned to callers by `getNextProxy` /
`getRandomProxy`. -/
structure ProxyRoute where
  host : String
  port : Nat
  protocol : String
deriving DecidableEq, Repr

/-- Projection to the returned route shape. -/
def routeOf (p : Proxy) : ProxyRoute :=
  { host := p.host, port := p.port, protocol := p.protocol }

/-- The pool's mutable state.  `refreshRequested` records that the expiry
branch of `getNextProxy` fired `refreshProxies()` without awaiting it —
the only effect the expiry check has on this call. -/
structure ProxyPoolState where
  proxies : List Proxy
  currentIndex : Nat
  expireTime : Option Int
  refreshRequested : Bool
deriving DecidableEq, Repr

/-- The availability test used by both selectors:
`proxy.enabled && proxy.failCount < proxy.maxFails`. -/
def proxyUsable (p : Proxy) : Bool :=
  p.enabled && p.failCount < p.maxFails

/-- `new Date() > this.expireTime` — the expiry test of `getNextProxy`. -/
def poolExpired (st : ProxyPoolState) (now : Int) : Bool :=
  match st.expireTime with
  | some e => e < now
  | none => false

/-- Embeds `resetFailCounts` (lines 547-553). -/
def resetFailCounts (ps : List Proxy) : List Proxy :=
  ps.map fun p => { p with failCount := 0, enabled := true }

/-- The `while (attempts < this.proxies.length)` scan of `getNextProxy`
(lines 464-480), with the remaining attempt budget as fuel: returns the
first usable proxy at or after `idx` (cyclically) together with the
post-scan `currentIndex`. -/
def scanProxies (ps : List Proxy) : Nat → Nat → Option (Proxy × Nat)
  | _, 0 => none
  | idx, fuel + 1 =>
    match ps.get? idx with
    | none => none
    | some p =>
      let nextIdx := (idx + 1) % ps.length
      if proxyUsable p = true then some (p, nextIdx)
      else scanProxies ps nextIdx fuel

/-- The route-selection tail of `getNextProxy` (everything after the
empty-pool throw and the expiry branch): the round-robin scan; when no
proxy is usable, fail counts are reset and the first proxy is
returned. -/
def getNextProxySelect (st : ProxyPoolState) :
    Except String (ProxyRoute × ProxyPoolState) :=
  match scanProxies st.proxies st.currentIndex st.proxies.length with
  | some (p, nextIdx) => .ok (routeOf p, { st with currentIndex := nextIdx })
  | none =>
    match (resetFailCounts st.proxies).head? with
    | some p => .ok (routeOf p, { st with proxies := resetFailCounts st.proxies })
    | none => .error "代理池为空"

/-- Embeds `ProxyPool.getNextProxy` (lines 449-493).  An empty pool
throws.  When the pool is past its expiry time, the source only logs a
warning and fires `refreshProxies()` asynchronously (not awaited), then
proceeds with the very same round-robin selection; the fired refresh is
recorded in `refreshRequested`. -/
def getNextProxy (st : ProxyPoolState) (now : Int) :
    Except String (ProxyRoute × ProxyPoolState) :=
  if st.proxies.length = 0 then .error "代理池为空"
  else getNextProxySelect
    (if poolExpired st now = true then { st with refreshRequested := true } else st)

/-- Embeds `ProxyPool.getRandomProxy` (lines 498-523) with the
`Math.random()` draw injected as `randIdx` (taken modulo the number of
available proxies) and the self-recursion after `resetFailCounts` bounded
by fuel; the source recurses forever when even the reset pool has no
usable proxy (possible only when every `maxFails` is `0`), which the
fuel-exhausted branch reports as an error.  No expiry check appears in
the source. -/
def getRandomProxyFuel (randIdx : Nat) : Nat → ProxyPoolState →
    Except String (ProxyRoute × ProxyPoolState)
  | 0, _ => .error "无可用代理"
  | fuel + 1, st =>
    if st.proxies.length = 0 then .error "代理池为空"
    else if (st.proxies.filter proxyUsable).length = 0 then
      getRandomProxyFuel randIdx fuel { st with proxies := resetFailCounts st.proxies }
    else
      match (st.proxies.filter proxyUsable).get?
              (randIdx % (st.proxies.filter proxyUsable).length) with
      | some p => .ok (routeOf p, st)
      | none => .error "无可用代理"

/-- `getRandomProxy`: at most one reset-and-retry is ever needed when some
proxy has a positive `maxFails`. -/
def getRandomProxy (st : ProxyPoolState) (randIdx : Nat) :
    Except String (ProxyRoute × ProxyPoolState) :=
  getRandomProxyFuel randIdx 2 st

/-!
`TicketManager.enforceRateLimit` (src/src/modules/preWork.js second
document, lines 512-539) and `TicketManager.getTicketForAccount`
(lines 315-397).
-/

/-- `Math.min(...xs)` over a list known non-empty at its call site. -/
def jsMin : List Int → Int
  | [] => 0
  | x :: xs => xs.foldl min x

/-- JavaScript `array.slice(-n)`: the last `n` elements. -/
def jsSliceLast (n : Nat) (l : List Int) : List Int :=
  l.drop (l.length - n)

/-- Embeds one call of `enforceRateLimit` for one account: given the
stored request-time list and the call time `now`, returns the sleep the
call performs and the stored list afterwards.  Transcribed from the
source: requests older than one second are filtered out; when at least
`maxN` remain, the call sleeps until one second past the oldest of them
(if that is still in the future); then the *pre-sleep* time `now` is
pushed and only the last `maxN` entries are kept. -/
def enforceRateLimit (maxN : Nat) (times : List Int) (now : Int) :
    Int × List Int :=
  let oneSecondAgo := now - 1000
  let recent := times.filter (fun t => decide (oneSecondAgo < t))
  let wait :=
    if maxN ≤ recent.length then
      let oldest := jsMin recent
      let w := 1000 - (now - oldest)
      if 0 < w then w else 0
    else 0
  (wait, jsSliceLast maxN (times ++ [now]))

/-- Sequential acquisition trace: run `enforceRateLimit` over a list of
call (arrival) times, returning the time each call returns (arrival plus
the sleep it performed) — the moment the caller issues its request. -/
def rlReturns (maxN : Nat) : List Int → List Int → List Int
  | _, [] => []
  | times, a :: as =>
    let step := enforceRateLimit maxN times a
    (a + step.1) :: rlReturns maxN step.2 as

/-- Well-formedness of a sequential trace: each call arrives no earlier
than the previous call returned (the callers are sequential). -/
def rlSequential (maxN : Nat) : List Int → Int → List Int → Bool
  | _, _, [] => true
  | times, prevRet, a :: as =>
    decide (prevRet ≤ a) &&
      (let step := enforceRateLimit maxN times a
       rlSequential maxN step.2 (a + step.1) as)

/-- One iteration's outcome in the `getTicketForAccount` retry loop:
a usable ticket, a well-formed call whose ticket is invalid/empty, or a
failed call (transport error or `success: false`, both reaching the
`catch` and sleeping before the next try).  Every one of these issues
exactly one `apiClient.getTicket` network call. -/
inductive IterResult
  | ticketOk (t : String)
  | ticketBad
  | callFailed
deriving DecidableEq, Repr

/-- Result of the `getTicketForAccount` loop.  `stillLooping` is the
model artifact for a finite script that the unbounded source loop has not
finished: the loop itself has no retry ceiling. -/
inductive TicketLoopOutcome
  | gotTicket (ticket : String) (attempts : Nat) (duration : Int)
  | timedOut (attempts : Nat) (duration : Int)
  | stillLooping (attempts : Nat)
deriving DecidableEq, Repr

/-- Embeds the `while (true)` loop of `TicketManager.getTicketForAccount`
(lines 322-387) against a script of iterations, each entry carrying the
elapsed time `Date.now() - startTime` observed at the loop head together
with the iteration's outcome.  Exactly as in the source, `attempts` is
incremented first, then the timeout check `elapsed > timeout` throws a
timeout error logged with the current `attempts` and elapsed time; a
usable ticket returns with the current `attempts`. -/
def getTicketLoop (timeout : Int) (attempts : Nat) :
    List (Int × IterResult) → TicketLoopOutcome
  | [] => .stillLooping attempts
  | (elapsed, r) :: rest =>
    let attempts := attempts + 1
    if timeout < elapsed then .timedOut attempts elapsed
    else
      match r with
      | .ticketOk t => .gotTicket t attempts elapsed
      | .ticketBad => getTicketLoop timeout attempts rest
      | .callFailed => getTicketLoop timeout attempts rest

/-- Number of `apiClient.getTicket` network calls the loop issues on a
script: one per iteration that passes the timeout check, stopping after a
usable ticket. -/
def issuedCalls (timeout : Int) : List (Int × IterResult) → Nat
  | [] => 0
  | (elapsed, r) :: rest =>
    if timeout < elapsed then 0
    else
      match r with
      | .ticketOk _ => 1
      | .ticketBad => 1 + issuedCalls timeout rest
      | .callFailed => 1 + issuedCalls timeout rest

/-!
`TicketValidator.parseValidationResponse` — both copies in
src/src/modules/ticketValidator.js (first document lines 145-178, second
document lines 364-407) — and `validateTicketForAccount` (lines 18-66).
-/

/-- The `data` payload of a validate-ticket response. -/
inductive ValData
  | nullData
  | nonObject
  | obj (success : JsBoolField)
deriving DecidableEq, Repr

/-- First copy of `parseValidationResponse`: a malformed body is
rejected; otherwise the ticket is accepted unless the body's `success`
is strictly `=== false`. -/
def parseValidationResponseOne : ValData → Bool
  | .nullData => false
  | .nonObject => false
  | .obj s => !(s == .jsFalse)

/-- Second copy of `parseValidationResponse`: a malformed body is
rejected; the ticket is accepted only when the body's `success` is
strictly `=== true`; an absent or non-boolean `success` is rejected. -/
def parseValidationResponseTwo : ValData → Bool
  | .nullData => false
  | .nonObject => false
  | .obj s => s == .jsTrue

/-- The network-layer result consumed by `validateTicketForAccount`:
either the transport threw, or the api client returned `{success, data}`. -/
inductive ValNetResult
  | transportError
  | apiReturn (success : Bool) (data : ValData)
deriving DecidableEq, Repr

/-- The object `validateTicketForAccount` returns (absent fields falsy). -/
structure ValidationResult where
  success : Bool
  valid : Bool
  needRetry : Bool
deriving DecidableEq, Repr

/-- Embeds `validateTicketForAccount` (lines 18-66), parameterized by
whichever copy of `parseValidationResponse` is in force: a transport
error or an api-level failure lands in the `catch` and yields
`{success: false, valid: false, needRetry: true}`; otherwise the parse
verdict decides between the valid result and the retryable invalid
result. -/
def validateTicketForAccount (parse : ValData → Bool) :
    ValNetResult → ValidationResult
  | .transportError => { success := false, valid := false, needRetry := true }
  | .apiReturn ok d =>
    if ok = false then { success := false, valid := false, needRetry := true }
    else if parse d = true then { success := true, valid := true, needRetry := false }
    else { success := true, valid := false, needRetry := true }

/-- The step-2 decision of `executeIndependentAccountFlow`
(lines 562-567): `if (!validationResult.valid) continue` sends the loop
back to step 1 (ticket acquisition); otherwise it proceeds to
submission. -/
def flowAfterValidation (vr : ValidationResult) : FlowStep2 :=
  if vr.valid = true then .proceedToSubmit else .backToAcquisition

/-!
Helper lemmas about the submission race.
-/

/-- Once `completed` is set, no callback changes `resolved`,
`roundCounter` or `dispatchCount`, and `completed` stays set. -/
lemma raceStep_frozen (s : RaceState) (e : RaceEvent) (h : s.completed = true) :
    (raceStep s e).completed = true ∧
    (raceStep s e).resolved = s.resolved ∧
    (raceStep s e).roundCounter = s.roundCounter ∧
    (raceStep s e).dispatchCount = s.dispatchCount := by
  cases e <;> simp [raceStep, h]

/-- Iterated version of `raceStep_frozen`. -/
lemma runRace_frozen (s : RaceState) (es : List RaceEvent) (h : s.completed = true) :
    (runRace s es).completed = true ∧
    (runRace s es).resolved = s.resolved ∧
    (runRace s es).roundCounter = s.roundCounter ∧
    (runRace s es).dispatchCount = s.dispatchCount := by
  induction es generalizing s with
  | nil => exact ⟨h, rfl, rfl, rfl⟩
  | cons e es ih =>
    have h1 := raceStep_frozen s e h
    have h2 := ih (raceStep s e) h1.1
    exact ⟨h2.1, h2.2.1.trans h1.2.1, h2.2.2.1.trans h1.2.2.1, h2.2.2.2.trans h1.2.2.2⟩

/-- Race invariant: before finalization nothing has been resolved, and
after finalization exactly one outcome has been resolved. -/
def raceInv (s : RaceState) : Prop :=
  (s.completed = false ∧ s.resolved = []) ∨
  (s.completed = true ∧ ∃ o, s.resolved = [o])

/-- The invariant is preserved by every callback. -/
lemma raceStep_inv (s : RaceState) (e : RaceEvent) (h : raceInv s) :
    raceInv (raceStep s e) := by
  rcases h with ⟨hc, hr⟩ | ⟨hc, o, hr⟩
  · have hne : ¬ s.completed = true := by simp [hc]
    cases e with
    | roundStart =>
      simp only [raceStep]
      split
      · exact Or.inl ⟨hc, hr⟩
      · exact Or.inl ⟨hc, hr⟩
    | taskDispatch =>
      simp only [raceStep]
      split
      · exact Or.inl ⟨hc, hr⟩
      · exact Or.inl ⟨hc, hr⟩
    | taskComplete r =>
      simp only [raceStep, if_neg hne]
      split
      · exact Or.inr ⟨rfl, ⟨.succeeded r, by simp [finalize, hr]⟩⟩
      · split
        · exact Or.inr ⟨rfl, ⟨.needTicket, by simp [finalize, hr]⟩⟩
        · exact Or.inl ⟨hc, hr⟩
    | timeoutFire =>
      simp only [raceStep, if_neg hne]
      exact Or.inr ⟨rfl, ⟨.timedOut, by simp [finalize, hr]⟩⟩
    | stopSignal => exact Or.inl ⟨hc, hr⟩
  · have h1 := raceStep_frozen s e hc
    exact Or.inr ⟨h1.1, o, h1.2.1.trans hr⟩

/-- The invariant holds along every run from the initial state. -/
lemma runRace_inv (s : RaceState) (es : List RaceEvent) (h : raceInv s) :
    raceInv (runRace s es) := by
  induction es generalizing s with
  | nil => exact h
  | cons e es ih => exact ih (raceStep s e) (raceStep_inv s e h)

lemma initRaceState_inv : raceInv initRaceState :=
  Or.inl ⟨rfl, rfl⟩

/-- Splitting a run. -/
lemma runRace_append (s : RaceState) (es es' : List RaceEvent) :
    runRace s (es ++ es') = runRace (runRace s es) es' := by
  induction es generalizing s with
  | nil => rfl
  | cons e es ih => simpa [runRace] using ih (raceStep s e)

/-- Counters are untouched whenever the round guard holds, and by the
completion/dispatch handlers always. -/
lemma raceStep_counters (s : RaceState) (e : RaceEvent)
    (hg : s.completed = true ∨ s.isRunning = false) :
    (raceStep s e).roundCounter = s.roundCounter ∧
    (raceStep s e).dispatchCount = s.dispatchCount := by
  cases e with
  | roundStart => simp [raceStep, if_pos hg]
  | taskDispatch => simp [raceStep, if_pos hg]
  | taskComplete r =>
    by_cases hc : s.completed = true
    · simp [raceStep, if_pos hc]
    · simp only [raceStep, if_neg hc]
      split
      · exact ⟨rfl, rfl⟩
      · split
        · exact ⟨rfl, rfl⟩
        · exact ⟨rfl, rfl⟩
  | timeoutFire =>
    by_cases hc : s.completed = true
    · simp [raceStep, if_pos hc]
    · simp [raceStep, if_neg hc, finalize]
  | stopSignal => exact ⟨rfl, rfl⟩

/-- Claim C1: for every run of the high-concurrency submission race, the
race's promise is resolved with at most one terminal result; a run whose
callbacks include the timeout handler (which always fires in the source)
resolves with exactly one terminal result; and once a terminal result has
been resolved, no further callbacks — however many attempts complete
afterwards — can change it: the first finalizer wins, because every
finalization path checks the `completed` flag before resolving and sets
it. -/
theorem c1_race_resolves_exactly_once (es es' : List RaceEvent) :
    (runRace initRaceState es).resolved.length ≤ 1 ∧
    (runRace initRaceState (es ++ [RaceEvent.timeoutFire])).resolved.length = 1 ∧
    (∀ o : RaceOutcome, (runRace initRaceState es).resolved = [o] →
      (runRace initRaceState (es ++ es')).resolved = [o]) := by
  have hinv := runRace_inv initRaceState es initRaceState_inv
  refine ⟨?_, ?_, ?_⟩
  · rcases hinv with ⟨_, hr⟩ | ⟨_, o, hr⟩ <;> simp [hr]
  · rw [runRace_append]
    rcases hinv with ⟨hc, hr⟩ | ⟨hc, o, hr⟩
    · have hne : ¬ (runRace initRaceState es).completed = true := by simp [hc]
      simp [runRace, raceStep, if_neg hne, finalize, hr]
    · have hfr := runRace_frozen (runRace initRaceState es) [RaceEvent.timeoutFire] hc
      rw [hfr.2.1, hr]
      rfl
  · intro o ho
    rcases hinv with ⟨hc, hr⟩ | ⟨hc, _, _⟩
    · rw [ho] at hr
      exact absurd hr (by simp)
    · rw [runRace_append]
      exact (runRace_frozen (runRace initRaceState es) es' hc).2.1.trans ho

/-- Witness for C1 at a concrete run: the timeout handler resolves the
race, and a later round-start callback does not change the resolution. -/
theorem c1_race_resolves_exactly_once_witness :
    (runRace initRaceState [RaceEvent.timeoutFire]).resolved = [RaceOutcome.timedOut] ∧
    (runRace initRaceState ([RaceEvent.timeoutFire] ++ [RaceEvent.roundStart])).resolved
      = [RaceOutcome.timedOut] :=
  ⟨by decide,
   (c1_race_resolves_exactly_once [RaceEvent.timeoutFire] [RaceEvent.roundStart]).2.2
      RaceOutcome.timedOut (by decide)⟩

/-- Claim C4: a submission round is counted, and a per-task submission is
dispatched, only from a state where `completed` is false and the
submitter is running — `startSubmissionRound` returns immediately when
`completed` is true and each task dispatch re-checks `completed` — and
once the race is finalized no sequence of further callbacks starts a
round or dispatches a submission network call. -/
theorem c4_no_round_after_finalization :
    (∀ (s : RaceState) (e : RaceEvent),
        ((raceStep s e).roundCounter ≠ s.roundCounter ∨
         (raceStep s e).dispatchCount ≠ s.dispatchCount) →
        s.completed = false ∧ s.isRunning = true) ∧
    (∀ (s : RaceState) (es : List RaceEvent), s.completed = true →
        (runRace s es).roundCounter = s.roundCounter ∧
        (runRace s es).dispatchCount = s.dispatchCount) := by
  constructor
  · intro s e h
    have key : (s.completed = true ∨ s.isRunning = false) → False := by
      intro hg
      have hcnt := raceStep_counters s e hg
      rcases h with h | h
      · exact h hcnt.1
      · exact h hcnt.2
    constructor
    · cases hcv : s.completed with
      | false => rfl
      | true => exact (key (Or.inl hcv)).elim
    · cases hrv : s.isRunning with
      | true => rfl
      | false => exact (key (Or.inr hrv)).elim
  · intro s es hc
    exact ⟨(runRace_frozen s es hc).2.2.1, (runRace_frozen s es hc).2.2.2⟩

/-- A finalized race state used to witness C4. -/
def finalizedDemoState : RaceState :=
  { completed := true, isRunning := true, roundCounter := 3,
    dispatchCount := 5, resolved := [RaceOutcome.timedOut] }

/-- Witness for C4 at a concrete finalized state: further round-start and
dispatch callbacks leave both counters unchanged. -/
theorem c4_no_round_after_finalization_witness :
    finalizedDemoState.completed = true ∧
    (runRace finalizedDemoState [RaceEvent.roundStart, RaceEvent.taskDispatch]).roundCounter
      = finalizedDemoState.roundCounter ∧
    (runRace finalizedDemoState [RaceEvent.roundStart, RaceEvent.taskDispatch]).dispatchCount
      = finalizedDemoState.dispatchCount :=
  ⟨rfl,
   (c4_no_round_after_finalization.2 finalizedDemoState
      [RaceEvent.roundStart, RaceEvent.taskDispatch] rfl).1,
   (c4_no_round_after_finalization.2 finalizedDemoState
      [RaceEvent.roundStart, RaceEvent.taskDispatch] rfl).2⟩

/-- A successful (`submitted`/`duplicate`) task result processed while the
race is unfinalized runs `handleSuccess`. -/
lemma raceStep_success_result (s : RaceState) (r : SubmitResult)
    (hs : s.completed = false) (h1 : r.success = true)
    (h2 : r.status = .submitted ∨ r.status = .duplicate) :
    raceStep s (.taskComplete r) = finalize (.succeeded r) s := by
  rcases h2 with h2 | h2 <;> simp [raceStep, hs, h1, h2]

/-- A `needNewTicket` task result processed while the race is unfinalized
runs `handleTicketExpired`. -/
lemma raceStep_needTicket_result (s : RaceState) (r : SubmitResult)
    (hs : s.completed = false) (h1 : r.success = false)
    (h2 : r.needNewTicket = true) :
    raceStep s (.taskComplete r) = finalize .needTicket s := by
  simp [raceStep, hs, h1, h2]

/-- Claim C10: `parseSubmitResponse` is total on the embedded response
space and canonical: the status is always one of the eight enumerated
statuses, `success` is `true` exactly for `submitted` and `duplicate`,
and `needNewTicket` is `true` exactly for `ticket_invalid`. -/
theorem c10_parse_submit_response_canonical (ar : ApiResult) :
    ((parseSubmitResponse ar).status = .api_error ∨
     (parseSubmitResponse ar).status = .invalid_response ∨
     (parseSubmitResponse ar).status = .submitted ∨
     (parseSubmitResponse ar).status = .ticket_invalid ∨
     (parseSubmitResponse ar).status = .duplicate ∨
     (parseSubmitResponse ar).status = .failed ∨
     (parseSubmitResponse ar).status = .unknown ∨
     (parseSubmitResponse ar).status = .parse_error) ∧
    ((parseSubmitResponse ar).success = true ↔
      ((parseSubmitResponse ar).status = .submitted ∨
       (parseSubmitResponse ar).status = .duplicate)) ∧
    ((parseSubmitResponse ar).needNewTicket = true ↔
      (parseSubmitResponse ar).status = .ticket_invalid) := by
  rcases ar with ⟨s, m, d⟩
  cases s
  · simp [parseSubmitResponse]
  · cases d with
    | nullData => simp [parseSubmitResponse]
    | nonObject => simp [parseSubmitResponse]
    | obj dd =>
      rcases dd with ⟨ds, c, msg, rid⟩
      cases ds <;> simp only [parseSubmitResponse] <;> split_ifs <;> simp

/-- The concrete response refuting C2 as stated: its body reports failure
and its message contains the duplicate-submission marker, but it also
carries the `TICKET_INVALID` code, which `parseSubmitResponse` checks
first. -/
def dupConflictResult : ApiResult :=
  { success := true, message := none,
    data := .obj { success := .jsFalse, code := some "TICKET_INVALID",
                   message := some "重复提交", requestId := none } }

/-- Counterexample to C2 as stated: a body-failure response whose message
contains the duplicate-submission marker is NOT always classified
`duplicate` with `success = true` — when the response also carries the
`TICKET_INVALID` code, that branch takes precedence and the result is
`ticket_invalid` with `success = false`. -/
theorem c2_counterexample :
    (match dupConflictResult.data with
     | .obj d => d.success = .jsFalse ∧
         strContains (d.message.getD "") "重复提交" = true
     | _ => False) ∧
    (parseSubmitResponse dupConflictResult).status ≠ SubmitStatus.duplicate ∧
    (parseSubmitResponse dupConflictResult).status = SubmitStatus.ticket_invalid ∧
    (parseSubmitResponse dupConflictResult).success = false := by
  refine ⟨⟨rfl, ?_⟩, ?_, rfl, rfl⟩
  · decide
  · decide

/-- Claim C2 (amended): a server response whose body reports failure,
whose code is not `TICKET_INVALID` (that check takes precedence), and
whose message contains the duplicate-submission marker is classified
`duplicate` with `success = true`; it finalizes the race through
`handleSuccess` — the same terminal constructor as a `submitted` result —
reaches the flow's terminal `finish` value with `type` `duplicate`, and
in the aggregate statistics it increments the separate `duplicate`
counter while leaving the `fail` counter (and the `success` counter)
unchanged. -/
theorem c2_duplicate_success_class (d : SubmitRespData) (m : Option String)
    (rs : List Settled) (s : RaceState) (r : SubmitResult)
    (hf : d.success = .jsFalse)
    (hc : ¬ d.code = some "TICKET_INVALID")
    (hm : strContains (d.message.getD "") "重复提交" = true)
    (hs : s.completed = false)
    (hr : r = parseSubmitResponse { success := true, message := m, data := .obj d }) :
    r.status = .duplicate ∧ r.success = true ∧ r.needRetry = false ∧
    raceStep s (.taskComplete r) = finalize (.succeeded r) s ∧
    (raceStep s (.taskComplete r)).completed = true ∧
    flowAfterSubmission (outcomeToSubmission (.succeeded r)) =
      .finish { success := true, type := .duplicateType } ∧
    (calculateResultStats
        (rs ++ [.fulfilled { success := true, type := .duplicateType }])).duplicate
      = (calculateResultStats rs).duplicate + 1 ∧
    (calculateResultStats
        (rs ++ [.fulfilled { success := true, type := .duplicateType }])).fail
      = (calculateResultStats rs).fail ∧
    (calculateResultStats
        (rs ++ [.fulfilled { success := true, type := .duplicateType }])).success
      = (calculateResultStats rs).success := by
  have hflds : r.status = .duplicate ∧ r.success = true ∧ r.needRetry = false := by
    rw [hr]
    simp [parseSubmitResponse, hf, hc, hm]
  have hstep := raceStep_success_result s r hs hflds.2.1 (Or.inr hflds.1)
  refine ⟨hflds.1, hflds.2.1, hflds.2.2, hstep, ?_, ?_, ?_, ?_, ?_⟩
  · rw [hstep]; rfl
  · simp [flowAfterSubmission, outcomeToSubmission, hflds.1]
  · simp [calculateResultStats, List.countP_append, countsDuplicate]
  · simp [calculateResultStats, List.countP_append, countsFail]
  · simp [calculateResultStats, List.countP_append, countsSuccess]

/-- The body used to witness C2 (amended): failure body, non-ticket
code, duplicate marker in the message. -/
def dupDemoBody : SubmitRespData :=
  { success := .jsFalse, code := some "ALREADY", message := some "重复提交",
    requestId := none }

/-- Witness for C2 (amended) at a concrete response, state and result
list. -/
theorem c2_duplicate_success_class_witness :
    dupDemoBody.success = .jsFalse ∧
    ¬ dupDemoBody.code = some "TICKET_INVALID" ∧
    strContains (dupDemoBody.message.getD "") "重复提交" = true ∧
    initRaceState.completed = false ∧
    (parseSubmitResponse { success := true, message := none, data := .obj dupDemoBody }).status
      = SubmitStatus.duplicate ∧
    (calculateResultStats
        ([] ++ [.fulfilled { success := true, type := .duplicateType }])).duplicate
      = (calculateResultStats []).duplicate + 1 :=
  ⟨rfl, by decide, by decide, rfl,
   (c2_duplicate_success_class dupDemoBody none [] initRaceState
      (parseSubmitResponse { success := true, message := none, data := .obj dupDemoBody })
      rfl (by decide) (by decide) rfl rfl).1,
   (c2_duplicate_success_class dupDemoBody none [] initRaceState
      (parseSubmitResponse { success := true, message := none, data := .obj dupDemoBody })
      rfl (by decide) (by decide) rfl rfl).2.2.2.2.2.2.1⟩

/-- Claim C8: a submission response carrying the `TICKET_INVALID` code is
parsed into a `ticket_invalid` result with `success = false` and
`needNewTicket = true`; processing it while the race is unfinalized runs
`handleTicketExpired`, which finalizes the race at once with the
needs-new-ticket outcome (`success = false`, `needNewTicket = true`); and
the per-account controller reacts to that outcome by returning to ticket
acquisition instead of retrying submission. -/
theorem c8_ticket_invalid_finalizes_and_restarts (d : SubmitRespData)
    (m : Option String) (s : RaceState) (r : SubmitResult)
    (hf : d.success = .jsFalse)
    (hc : d.code = some "TICKET_INVALID")
    (hs : s.completed = false)
    (hr : r = parseSubmitResponse { success := true, message := m, data := .obj d }) :
    r.status = .ticket_invalid ∧ r.success = false ∧ r.needNewTicket = true ∧
    raceStep s (.taskComplete r) = finalize .needTicket s ∧
    (raceStep s (.taskComplete r)).completed = true ∧
    (raceStep s (.taskComplete r)).resolved = s.resolved ++ [RaceOutcome.needTicket] ∧
    (outcomeToSubmission .needTicket).success = false ∧
    (outcomeToSubmission .needTicket).needNewTicket = true ∧
    flowAfterSubmission (outcomeToSubmission .needTicket) = .reacquireTicket := by
  have hflds : r.status = .ticket_invalid ∧ r.success = false ∧ r.needNewTicket = true := by
    rw [hr]
    simp [parseSubmitResponse, hf, hc]
  have hstep := raceStep_needTicket_result s r hs hflds.2.1 hflds.2.2
  refine ⟨hflds.1, hflds.2.1, hflds.2.2, hstep, ?_, ?_, rfl, rfl, ?_⟩
  · rw [hstep]; rfl
  · rw [hstep]; rfl
  · simp [flowAfterSubmission, outcomeToSubmission]

/-- The body used to witness C8: a failure body carrying the
`TICKET_INVALID` code. -/
def ticketInvalidBody : SubmitRespData :=
  { success := .jsFalse, code := some "TICKET_INVALID", message := none,
    requestId := none }

/-- Witness for C8 at a concrete response and the initial race state. -/
theorem c8_ticket_invalid_finalizes_and_restarts_witness :
    ticketInvalidBody.success = .jsFalse ∧
    ticketInvalidBody.code = some "TICKET_INVALID" ∧
    initRaceState.completed = false ∧
    (parseSubmitResponse { success := true, message := none, data := .obj ticketInvalidBody }).needNewTicket
      = true ∧
    flowAfterSubmission (outcomeToSubmission .needTicket) = FlowNext.reacquireTicket :=
  ⟨rfl, rfl, rfl,
   (c8_ticket_invalid_finalizes_and_restarts ticketInvalidBody none initRaceState
      (parseSubmitResponse { success := true, message := none, data := .obj ticketInvalidBody })
      rfl rfl rfl rfl).2.2.1,
   (c8_ticket_invalid_finalizes_and_restarts ticketInvalidBody none initRaceState
      (parseSubmitResponse { success := true, message := none, data := .obj ticketInvalidBody })
      rfl rfl rfl rfl).2.2.2.2.2.2.2.2⟩

/-- Claim C9: submitting for an account already present in the
submitter's `accountStatuses` map is idempotent and side-effect-free —
`submitForAccount` returns `{success: true, completed: true}` at once,
the submitter state is unchanged, and no high-concurrency race (hence no
submission task and no network call) is launched. -/
theorem c9_completed_account_idempotent (st : SubmitterState) (a : Account)
    (ticket : String) (h : isAccountCompleted st a.accId = true) :
    submitForAccount st a ticket =
      (.alreadyCompleted { success := true, completed := true,
                           needNewTicket := false, result := none }, st) ∧
    (submitForAccount st a ticket).2 = st ∧
    (∀ tasks : List SubmitTask,
        ¬ (submitForAccount st a ticket).1 = .runHighConcurrency tasks) := by
  have h1 : submitForAccount st a ticket =
      (.alreadyCompleted { success := true, completed := true,
                           needNewTicket := false, result := none }, st) := by
    simp [submitForAccount, h]
  refine ⟨h1, by rw [h1], ?_⟩
  intro tasks hcon
  rw [h1] at hcon
  simp at hcon

/-- A submitter state that has already marked account `acc1` completed,
used to witness C9. -/
def demoSubmitter : SubmitterState :=
  { accountStatuses := [("acc1", { status := "success", completedAt := 0 })],
    successfulAccounts := ["acc1"], duplicateSubmissions := [],
    isRunning := true }

/-- An account with submit tasks available, used to witness C9: only the
completed-account guard keeps the race from launching. -/
def demoAccount : Account :=
  { accId := "acc1", tourismSubsidyIds := [("500", "sid-500")],
    foodSubsidyId := some "sid-food" }

/-- Witness for C9 at a concrete submitter state and account. -/
theorem c9_completed_account_idempotent_witness :
    isAccountCompleted demoSubmitter demoAccount.accId = true ∧
    submitForAccount demoSubmitter demoAccount "tk" =
      (.alreadyCompleted { success := true, completed := true,
                           needNewTicket := false, result := none }, demoSubmitter) :=
  ⟨by decide,
   (c9_completed_account_idempotent demoSubmitter demoAccount "tk" (by decide)).1⟩

/-- The route `getNextProxySelect` yields, as a function of the proxies
and the cursor only (proof helper). -/
def selectRouteCore (ps : List Proxy) (idx : Nat) : Option ProxyRoute :=
  match scanProxies ps idx ps.length with
  | some (p, _) => some (routeOf p)
  | none => (resetFailCounts ps).head?.map routeOf

/-- `getNextProxySelect` returns the route computed by
`selectRouteCore`. -/
lemma getNextProxySelect_route (st : ProxyPoolState) :
    (getNextProxySelect st).toOption.map Prod.fst =
      selectRouteCore st.proxies st.currentIndex := by
  unfold getNextProxySelect selectRouteCore
  cases hscan : scanProxies st.proxies st.currentIndex st.proxies.length with
  | some pn => simp [Except.toOption]
  | none =>
    cases hh : (resetFailCounts st.proxies).head? with
    | some p => simp [hh, Except.toOption]
    | none => simp [hh, Except.toOption]

/-- On a non-empty pool the selection never falls through to the error
branch. -/
lemma selectRouteCore_isSome (ps : List Proxy) (idx : Nat) (h : ¬ ps = []) :
    (selectRouteCore ps idx).isSome = true := by
  unfold selectRouteCore
  cases hscan : scanProxies ps idx ps.length with
  | some pn => simp
  | none =>
    cases hps : ps with
    | nil => exact absurd hps h
    | cons a l => simp [resetFailCounts, hps]

/-- The route drawn by `getRandomProxyFuel` depends only on the proxy
list, not on `expireTime`, `currentIndex` or `refreshRequested`. -/
lemma getRandomProxyFuel_route (randIdx : Nat) (fuel : Nat) :
    ∀ (st st2 : ProxyPoolState), st.proxies = st2.proxies →
    (getRandomProxyFuel randIdx fuel st).toOption.map Prod.fst =
    (getRandomProxyFuel randIdx fuel st2).toOption.map Prod.fst := by
  induction fuel with
  | zero => intro st st2 hp; rfl
  | succ n ih =>
    intro st st2 hp
    simp only [getRandomProxyFuel]
    rw [hp]
    by_cases h0 : st2.proxies.length = 0
    · simp [h0]
    · simp only [if_neg h0]
      by_cases ha : (st2.proxies.filter proxyUsable).length = 0
      · simp only [if_pos ha]
        exact ih _ _ rfl
      · simp only [if_neg ha]
        cases hg : (st2.proxies.filter proxyUsable).get?
            (randIdx % (st2.proxies.filter proxyUsable).length) with
        | none => rfl
        | some p => rfl

/-- The pool used to refute C3: one healthy route, expiry deadline long
past. -/
def expiredDemoPool : ProxyPoolState :=
  { proxies := [{ host := "10.0.0.1", port := 8080, protocol := "http",
                  enabled := true, failCount := 0, maxFails := 3 }],
    currentIndex := 0, expireTime := some 0, refreshRequested := false }

/-- Counterexample to C3 as stated: at a time strictly after the pool's
expiry deadline, `getNextProxy` does not fail — it returns the healthy
route (merely flagging an asynchronous refresh) — and `getRandomProxy`
also returns a route; so requests can still be attempted with pool routes
after expiry. -/
theorem c3_counterexample :
    poolExpired expiredDemoPool 5000 = true ∧
    (getNextProxy expiredDemoPool 5000).isOk = true ∧
    (getNextProxy expiredDemoPool 5000).toOption.map Prod.fst =
      some { host := "10.0.0.1", port := 8080, protocol := "http" } ∧
    (getRandomProxy expiredDemoPool 0).isOk = true := by
  refine ⟨rfl, ?_, ?_, ?_⟩ <;> decide

/-- Claim C3 (amended): passing the expiry deadline does not make route
selection fail.  On any non-empty pool `getNextProxy` still returns a
route, chosen exactly as it would be for an unexpired pool (the expiry
branch only flags an asynchronous refresh), and `getRandomProxy`'s route
is independent of the expiry deadline altogether; the selectors fail only
on an empty pool (or, for `getRandomProxy`, the degenerate pool whose
every `maxFails` is zero, on which the source would recurse forever). -/
theorem c3_route_selection_ignores_expiry (st : ProxyPoolState)
    (now now2 : Int) (e : Option Int) (h : ¬ st.proxies = []) :
    (getNextProxy st now).isOk = true ∧
    (getNextProxy st now).toOption.map Prod.fst =
      (getNextProxy { st with expireTime := e } now2).toOption.map Prod.fst ∧
    (∀ randIdx : Nat, (getRandomProxy st randIdx).toOption.map Prod.fst =
      (getRandomProxy { st with expireTime := e } randIdx).toOption.map Prod.fst) := by
  have h0 : ¬ st.proxies.length = 0 := by
    simpa [List.length_eq_zero] using h
  have hroute : ∀ (st2 : ProxyPoolState) (n : Int), st2.proxies = st.proxies →
      st2.currentIndex = st.currentIndex →
      (getNextProxy st2 n).toOption.map Prod.fst =
        selectRouteCore st.proxies st.currentIndex := by
    intro st2 n hp hi
    have h02 : ¬ st2.proxies.length = 0 := by rw [hp]; exact h0
    unfold getNextProxy
    rw [if_neg h02]
    by_cases he : poolExpired st2 n = true
    · rw [if_pos he, getNextProxySelect_route]
      simpa using by rw [hp, hi]
    · rw [if_neg he, getNextProxySelect_route, hp, hi]
  refine ⟨?_, ?_, ?_⟩
  · have hr := hroute st now rfl rfl
    have hsome := selectRouteCore_isSome st.proxies st.currentIndex h
    cases hg : getNextProxy st now with
    | error err =>
      rw [hg] at hr
      simp only [Except.toOption, Option.map] at hr
      rw [← hr] at hsome
      simp at hsome
    | ok v => rfl
  · rw [hroute st now rfl rfl, hroute { st with expireTime := e } now2 rfl rfl]
  · intro randIdx
    exact getRandomProxyFuel_route randIdx 2 st { st with expireTime := e } rfl

/-- Witness for C3 (amended) at a concrete non-empty pool. -/
theorem c3_route_selection_ignores_expiry_witness :
    ¬ expiredDemoPool.proxies = [] ∧
    (getNextProxy expiredDemoPool 5000).toOption.map Prod.fst =
      (getNextProxy { expiredDemoPool with expireTime := none } (-5000)).toOption.map
        Prod.fst :=
  ⟨by decide,
   (c3_route_selection_ignores_expiry expiredDemoPool 5000 (-5000) none
      (by decide)).2.1⟩

/-- The arrival times of the sequential trace refuting C5: five
acquisitions for one account with `maxRequestsPerSecond = 2`. -/
def rlDemoArrivals : List Int := [0, 0, 0, 1000, 1000]

/-- Counterexample to C5 as stated: in a well-formed sequential trace
with N = 2, calls 1 and 2 are issued together inside one 1-second window;
call 3 is delayed to t = 1000, but because `enforceRateLimit` records the
pre-sleep call time (0) rather than the issue time, calls 4 and 5 then
pass the check and also issue at t = 1000 — three requests inside the
rolling window (0, 1000] (more than N) and consecutive acquisitions
returning 0 ms apart (less than 1000/N = 500 ms). -/
theorem c5_counterexample :
    rlSequential 2 [] 0 rlDemoArrivals = true ∧
    rlReturns 2 [] rlDemoArrivals = [0, 0, 1000, 1000, 1000] ∧
    ((rlReturns 2 [] rlDemoArrivals).filter
        (fun t => decide (0 < t ∧ t ≤ 1000))).length = 3 ∧
    (rlReturns 2 [] rlDemoArrivals).get? 3 = some 1000 ∧
    (rlReturns 2 [] rlDemoArrivals).get? 4 = some 1000 := by
  refine ⟨?_, ?_, ?_, ?_, ?_⟩ <;> decide

/-- Claim C5 (amended): `enforceRateLimit` never throws; a call that
finds fewer than N requests recorded inside the trailing 1-second window
does not delay at all, and any delay is non-negative; the per-account
record keeps at most N timestamps; but the timestamp it records is the
pre-delay call time (the list always ends with `now`, even when the call
slept), which is why more than N requests can issue inside a rolling
1-second window and consecutive acquisitions can return less than
1000/N ms apart. -/
theorem c5_rate_limiter_records_presleep_time (maxN : Nat) (times : List Int)
    (now : Int) (h1 : 1 ≤ maxN) :
    0 ≤ (enforceRateLimit maxN times now).1 ∧
    ((times.filter (fun t => decide (now - 1000 < t))).length < maxN →
      (enforceRateLimit maxN times now).1 = 0) ∧
    (enforceRateLimit maxN times now).2.length ≤ maxN ∧
    (enforceRateLimit maxN times now).2.getLast? = some now := by
  refine ⟨?_, ?_, ?_, ?_⟩
  · simp only [enforceRateLimit]
    split
    · split
      · omega
      · omega
    · omega
  · intro hlt
    simp only [enforceRateLimit]
    rw [if_neg (by omega)]
  · simp only [enforceRateLimit, jsSliceLast, List.length_drop]
    omega
  · simp only [enforceRateLimit, jsSliceLast]
    have hk : (times ++ [now]).length - maxN ≤ times.length := by
      simp only [List.length_append, List.length_singleton]
      omega
    rw [List.drop_append_of_le_length hk, List.getLast?_append_cons]
    rfl

/-- Witness for C5 (amended) at a concrete call: two recent requests,
N = 2, so the call sleeps yet records its pre-sleep time. -/
theorem c5_rate_limiter_records_presleep_time_witness :
    (1 : Nat) ≤ 2 ∧
    (enforceRateLimit 2 [0, 0] 0).2.getLast? = some 0 ∧
    (enforceRateLimit 2 [0, 0] 0).1 = 1000 :=
  ⟨by decide,
   (c5_rate_limiter_records_presleep_time 2 [0, 0] 0 (by decide)).2.2.2,
   by decide⟩

/-- Whether a loop iteration obtained a usable ticket. -/
def isTicketOk : IterResult → Bool
  | .ticketOk _ => true
  | .ticketBad => false
  | .callFailed => false

/-- Accounting at timeout, generalized over the attempt accumulator: the
loop times out only strictly after `timeout`, with the reported attempt
count exceeding the issued-call count by one. -/
lemma getTicketLoop_timedOut (timeout : Int) :
    ∀ (script : List (Int × IterResult)) (k a : Nat) (e : Int),
    getTicketLoop timeout k script = .timedOut a e →
    timeout < e ∧ a = k + issuedCalls timeout script + 1 := by
  intro script
  induction script with
  | nil =>
    intro k a e h
    simp [getTicketLoop] at h
  | cons p rest ih =>
    intro k a e h
    obtain ⟨el, r⟩ := p
    simp only [getTicketLoop] at h
    by_cases ht : timeout < el
    · rw [if_pos ht] at h
      cases h
      exact ⟨ht, by simp [issuedCalls, if_pos ht]⟩
    · rw [if_neg ht] at h
      cases r with
      | ticketOk t => simp at h
      | ticketBad =>
        have hr := ih (k + 1) a e h
        refine ⟨hr.1, ?_⟩
        rw [hr.2]
        simp only [issuedCalls, if_neg ht]
        omega
      | callFailed =>
        have hr := ih (k + 1) a e h
        refine ⟨hr.1, ?_⟩
        rw [hr.2]
        simp only [issuedCalls, if_neg ht]
        omega

/-- Accounting at success, generalized over the attempt accumulator: the
attempt count equals the issued-call count, and the success happened
within the timeout. -/
lemma getTicketLoop_gotTicket (timeout : Int) :
    ∀ (script : List (Int × IterResult)) (k : Nat) (t : String) (a : Nat) (e : Int),
    getTicketLoop timeout k script = .gotTicket t a e →
    a = k + issuedCalls timeout script ∧ e ≤ timeout := by
  intro script
  induction script with
  | nil =>
    intro k t a e h
    simp [getTicketLoop] at h
  | cons p rest ih =>
    intro k t a e h
    obtain ⟨el, r⟩ := p
    simp only [getTicketLoop] at h
    by_cases ht : timeout < el
    · rw [if_pos ht] at h
      simp at h
    · rw [if_neg ht] at h
      cases r with
      | ticketOk t2 =>
        cases h
        exact ⟨by simp [issuedCalls, if_neg ht], by omega⟩
      | ticketBad =>
        have hr := ih (k + 1) t a e h
        refine ⟨?_, hr.2⟩
        rw [hr.1]
        simp only [issuedCalls, if_neg ht]
        omega
      | callFailed =>
        have hr := ih (k + 1) t a e h
        refine ⟨?_, hr.2⟩
        rw [hr.1]
        simp only [issuedCalls, if_neg ht]
        omega

/-- No retry ceiling: the loop never terminates on a script of in-time,
ticketless iterations — it just keeps looping. -/
lemma getTicketLoop_keeps_looping (timeout : Int) :
    ∀ (script : List (Int × IterResult)) (k : Nat),
    (∀ p ∈ script, p.1 ≤ timeout ∧ isTicketOk p.2 = false) →
    getTicketLoop timeout k script = .stillLooping (k + script.length) := by
  intro script
  induction script with
  | nil => intro k _; rfl
  | cons p rest ih =>
    intro k hall
    obtain ⟨el, r⟩ := p
    have hp := hall (el, r) (by simp)
    have ht : ¬ timeout < el := by
      have := hp.1
      omega
    simp only [getTicketLoop, if_neg ht]
    cases r with
    | ticketOk t => simp [isTicketOk] at hp
    | ticketBad =>
      rw [ih (k + 1) (fun q hq => hall q (by simp [hq]))]
      simp only [List.length_cons]
      congr 1
      omega
    | callFailed =>
      rw [ih (k + 1) (fun q hq => hall q (by simp [hq]))]
      simp only [List.length_cons]
      congr 1
      omega

/-- The iteration script refuting C6's attempt-count clause: one failed
call, then the timeout fires. -/
def ticketDemoScript : List (Int × IterResult) := [(0, .callFailed), (200, .callFailed)]

/-- Counterexample to C6 as stated: with timeout 100 ms, one request call
is issued (at elapsed 0) and at the next loop head (elapsed 200) the
timeout fires — reported with attempt count 2, which is NOT equal to the
1 ticket request call actually issued, because the counter is incremented
before the timeout check. -/
theorem c6_counterexample :
    getTicketLoop 100 0 ticketDemoScript = .timedOut 2 200 ∧
    issuedCalls 100 ticketDemoScript = 1 ∧
    ¬ (2 : Nat) = 1 := by
  refine ⟨?_, ?_, ?_⟩ <;> decide

/-- Claim C6 (amended): `getTicketForAccount` retries with no retry-count
ceiling (a script of in-time ticketless iterations just keeps the loop
running) and raises its timeout error only when the elapsed time strictly
exceeds the configured timeout — never before; the attempt count it
reports on timeout equals the number of ticket request calls actually
issued PLUS ONE, because the counter is incremented at the top of the
final iteration before the timeout check fires; on success the attempt
count equals the number of issued calls exactly. -/
theorem c6_ticket_timeout_attempt_accounting (timeout : Int) :
    (∀ (script : List (Int × IterResult)) (a : Nat) (e : Int),
        getTicketLoop timeout 0 script = .timedOut a e →
        timeout < e ∧ a = issuedCalls timeout script + 1) ∧
    (∀ (script : List (Int × IterResult)) (t : String) (a : Nat) (e : Int),
        getTicketLoop timeout 0 script = .gotTicket t a e →
        a = issuedCalls timeout script ∧ e ≤ timeout) ∧
    (∀ script : List (Int × IterResult),
        (∀ p ∈ script, p.1 ≤ timeout ∧ isTicketOk p.2 = false) →
        getTicketLoop timeout 0 script = .stillLooping script.length) := by
  refine ⟨?_, ?_, ?_⟩
  · intro script a e h
    have hr := getTicketLoop_timedOut timeout script 0 a e h
    exact ⟨hr.1, by omega⟩
  · intro script t a e h
    have hr := getTicketLoop_gotTicket timeout script 0 t a e h
    exact ⟨by omega, hr.2⟩
  · intro script hall
    have hr := getTicketLoop_keeps_looping timeout script 0 hall
    simpa using hr

/-- Witness for C6 (amended) at the concrete two-iteration script. -/
theorem c6_ticket_timeout_attempt_accounting_witness :
    (100 : Int) < 200 ∧ (2 : Nat) = issuedCalls 100 ticketDemoScript + 1 :=
  ⟨((c6_ticket_timeout_attempt_accounting 100).1 ticketDemoScript 2 200 (by decide)).1,
   ((c6_ticket_timeout_attempt_accounting 100).1 ticketDemoScript 2 200 (by decide)).2⟩

/-- Counterexample to C7 as stated: a well-formed response whose
`success` field is absent does not explicitly report failure, yet the
second copy of `parseValidationResponse` (the one cited by the claim
alongside the first) rejects it — `validateTicketForAccount` then reports
the ticket as not accepted (`valid = false`), contradicting "accepted for
every response that does not explicitly report failure". -/
theorem c7_counterexample :
    ¬ JsBoolField.jsAbsent = JsBoolField.jsFalse ∧
    parseValidationResponseTwo (.obj .jsAbsent) = false ∧
    validateTicketForAccount parseValidationResponseTwo (.apiReturn true (.obj .jsAbsent)) =
      { success := true, valid := false, needRetry := true } := by
  refine ⟨?_, rfl, ?_⟩
  · decide
  · decide

/-- Claim C7 (amended): the first copy of the validation parser accepts
every well-formed response whose `success` field is not strictly `false`;
the second copy accepts only `success === true` and reports an absent or
non-boolean `success` as not accepted; under either copy a malformed
body is rejected, and a transport error or API-level failure yields a
not-accepted-but-retryable result, on which the controller returns to
ticket acquisition rather than re-validating. -/
theorem c7_validation_acceptance (s : JsBoolField) (p : ValData → Bool)
    (hs : ¬ s = .jsFalse) :
    parseValidationResponseOne (.obj s) = true ∧
    (parseValidationResponseTwo (.obj s) = true ↔ s = .jsTrue) ∧
    parseValidationResponseOne .nullData = false ∧
    parseValidationResponseTwo .nullData = false ∧
    parseValidationResponseOne .nonObject = false ∧
    parseValidationResponseTwo .nonObject = false ∧
    validateTicketForAccount p .transportError =
      { success := false, valid := false, needRetry := true } ∧
    (∀ d : ValData, validateTicketForAccount p (.apiReturn false d) =
      { success := false, valid := false, needRetry := true }) ∧
    flowAfterValidation { success := false, valid := false, needRetry := true } =
      .backToAcquisition := by
  refine ⟨?_, ?_, rfl, rfl, rfl, rfl, rfl, ?_, ?_⟩
  · cases s with
    | jsTrue => rfl
    | jsFalse => exact absurd rfl hs
    | jsAbsent => rfl
    | jsOther => rfl
  · cases s <;> simp [parseValidationResponseTwo]
  · intro d
    simp [validateTicketForAccount]
  · simp [flowAfterValidation]

/-- Witness for C7 (amended) at the absent-`success` response and the
second parser copy. -/
theorem c7_validation_acceptance_witness :
    ¬ JsBoolField.jsAbsent = JsBoolField.jsFalse ∧
    parseValidationResponseOne (.obj .jsAbsent) = true ∧
    flowAfterValidation { success := false, valid := false, needRetry := true } =
      FlowStep2.backToAcquisition :=
  ⟨by decide,
   (c7_validation_acceptance .jsAbsent parseValidationResponseTwo (by decide)).1,
   (c7_validation_acceptance .jsAbsent parseValidationResponseTwo
      (by decide)).2.2.2.2.2.2.2.2⟩

end Hnbt
